import Mathlib

/-!
Verification of the dealer-scraper core: a shallow embedding of
`analysis/multi_oem_detector.py`, `targeting/srec_itc_filter.py` and
`targeting/coperniq_lead_scorer.py` (the entity resolver and lead scorer),
with theorems settling the behavioural claims about them.

Python `str` is modelled by `String`, `int` by `Nat`/`Int`, `float` rating
values by `Rat` (only compared, never rounded), Python dicts by insertion
ordered association lists, and Python sets of strings by `Finset String`.
-/

/-- Embedding of `scrapers/base_scraper.py` `StandardizedDealer`, restricted to
the fields that the resolver and the scorer read (`name`, `phone`, `domain`,
`website`, `city`, `state`, `zip`, `rating`, `review_count`, `tier`,
`employee_count`); the remaining fields are never consulted by the functions
verified here. -/
structure StandardizedDealer where
  name : String
  phone : String
  domain : String
  website : String := ""
  city : String := ""
  state : String := ""
  zip : String := ""
  rating : Rat := 0
  review_count : Nat := 0
  tier : String := "Standard"
  employee_count : Option Int := none
deriving DecidableEq, Repr

/-- Embedding of `MultiOEMMatch` (the `ResolvedContractor` of the spec):
the fields set by `find_multi_oem_contractors`. -/
structure MultiOEMMatch where
  primary_dealer : StandardizedDealer
  oem_sources : Finset String
  dealer_records : List StandardizedDealer
  match_confidence : Nat
  match_signals : List String
  multi_oem_score : Nat
deriving DecidableEq

/-- `MultiOEMMatch.calculate_multi_oem_score`, as a function of
`len(self.oem_sources)`: 3+ OEMs score 100, 2 score 60, 1 scores 20,
0 scores 0. -/
def calculate_multi_oem_score (oem_count : Nat) : Nat :=
  if oem_count ≥ 3 then 100
  else if oem_count = 2 then 60
  else if oem_count = 1 then 20
  else 0

/-- `MultiOEMDetector.normalize_phone`: keep digits only, and drop a leading
`1` when the digit string has length 11 (US country code). -/
def normalize_phone (phone : String) : String :=
  let digits := phone.data.filter Char.isDigit
  let digits :=
    if digits.head? = some '1' ∧ digits.length = 11 then digits.tail else digits
  String.mk digits

/-- Left-to-right removal of every occurrence of `"www."`, the effect of
Python `domain.replace("www.", "")` on a lowercased domain. -/
def stripWWW : List Char → List Char
  | 'w' :: 'w' :: 'w' :: '.' :: rest => stripWWW rest
  | c :: rest => c :: stripWWW rest
  | [] => []

/-- Lowercase a string character by character (ASCII; the effect of Python
`str.lower()` on the inputs handled here). -/
def lowerStr (s : String) : String := String.mk (s.data.map Char.toLower)

/-- Split a character list on the separator `'.'` (Python `str.split(".")`):
empty pieces are kept, and the empty string yields `[""]`. -/
def splitDots : List Char → List String
  | [] => [""]
  | c :: rest =>
    if c = '.' then "" :: splitDots rest
    else
      match splitDots rest with
      | [] => [String.mk [c]]
      | p :: ps => String.mk (c :: p.data) :: ps

/-- Join a list of strings with a separator (Python `sep.join(parts)`). -/
def joinWith (sep : String) : List String → String
  | [] => ""
  | [p] => p
  | p :: ps => p ++ sep ++ joinWith sep ps

/-- `MultiOEMDetector.normalize_domain`: lowercase, remove `"www."`, then keep
the last 3 dot-separated labels when the second-to-last is one of
`co|com|org|net`, else the last 2 (when at least 2 exist), else the string
unchanged. -/
def normalize_domain (domain : String) : String :=
  if domain = "" then ""
  else
    let d := stripWWW (lowerStr domain).data
    let parts := splitDots d
    if parts.length ≥ 3 ∧
        parts.getD (parts.length - 2) "" ∈ ["co", "com", "org", "net"] then
      joinWith "." (parts.drop (parts.length - 3))
    else if parts.length ≥ 2 then
      joinWith "." (parts.drop (parts.length - 2))
    else String.mk d

/-- Python word characters (`\w`) for the ASCII names handled here. -/
def isWordChar (c : Char) : Bool := c.isAlphanum || c = '_'

/-- Split a character list into maximal whitespace-free tokens
(Python `str.split()` with no argument). -/
def wordsOf : List Char → List String :=
  fun cs =>
    let rec go : List Char → List Char → List String
      | [], acc => if acc = [] then [] else [String.mk acc.reverse]
      | c :: rest, acc =>
        if c.isWhitespace then
          (if acc = [] then go rest [] else String.mk acc.reverse :: go rest [])
        else go rest (c :: acc)
    go cs []

/-- The legal suffixes stripped by `fuzzy_name_match`'s `normalize_name`. -/
def legalSuffixes : List String :=
  ["llc", "inc", "incorporated", "corp", "corporation", "ltd", "limited", "co"]

/-- `normalize_name` inside `fuzzy_name_match`: lowercase, drop punctuation
(keep word characters and whitespace), remove the legal suffixes as whole
words, collapse whitespace.  After punctuation removal the only non-word
characters left are whitespace, so removing `\b suffix \b` occurrences and
collapsing equals dropping whitespace-delimited tokens equal to a suffix. -/
def normalize_name (name : String) : String :=
  let lowered := (lowerStr name).data.filter (fun c => isWordChar c || c.isWhitespace)
  let toks := (wordsOf lowered).filter (fun t => t ∉ legalSuffixes)
  joinWith " " toks

/-- List infix test used to model Python's `in` on strings. -/
def listIsInfix (a b : List Char) : Bool :=
  b.tails.any (fun t => a.isPrefixOf t)

/-- The token-set Jaccard similarity that `fuzzy_name_match`'s inner
`levenshtein_ratio` actually computes: swap so the first argument is the
longer string, return 0 on an empty shorter string or empty token sets,
else |intersection| / |union| of the whitespace-token sets. -/
def levenshtein_ratio (s1 s2 : String) : Rat :=
  let (a, b) := if s1.length < s2.length then (s2, s1) else (s1, s2)
  if b.length = 0 then 0
  else
    let tokens1 := (wordsOf a.data).toFinset
    let tokens2 := (wordsOf b.data).toFinset
    if tokens1 = ∅ ∨ tokens2 = ∅ then 0
    else
      let inter := (tokens1 ∩ tokens2).card
      let union := (tokens1 ∪ tokens2).card
      if union > 0 then (inter : Rat) / (union : Rat) else 0

/-- `MultiOEMDetector.fuzzy_name_match`: empty input never matches; equal
normalized names match with score 1; a substring relation between the
normalized names matches with score 0.9; otherwise the Jaccard ratio is
compared against the threshold (default 0.85). -/
def fuzzy_name_match (name1 name2 : String) (threshold : Rat := 85/100) :
    Bool × Rat :=
  if name1 = "" ∨ name2 = "" then (false, 0)
  else
    let norm1 := normalize_name name1
    let norm2 := normalize_name name2
    if norm1 = norm2 then (true, 1)
    else if listIsInfix norm1.data norm2.data ∨ listIsInfix norm2.data norm1.data then
      (true, 9/10)
    else
      let ratio := levenshtein_ratio norm1 norm2
      (decide (ratio ≥ threshold), ratio)

/-- One index bucket: a normalized key with its `(oem_name, dealer)` entries
in insertion order.  Models one binding of the Python `defaultdict(list)`. -/
abbrev IndexEntry := String × List (String × StandardizedDealer)

/-- Append an entry to a key's bucket, creating the bucket at the end when the
key is new — exactly `defaultdict(list)[key].append(entry)` on an insertion
ordered dict. -/
def indexAdd (idx : List IndexEntry) (key : String)
    (entry : String × StandardizedDealer) : List IndexEntry :=
  match idx with
  | [] => [(key, [entry])]
  | (k, es) :: rest =>
    if k = key then (k, es ++ [entry]) :: rest
    else (k, es) :: indexAdd rest key entry

/-- The index-building loop of `find_multi_oem_contractors`: walk the OEM
batches in insertion order and file every dealer under its normalized phone
and normalized domain, skipping empty keys. -/
def buildIndexes (dealers_by_oem : List (String × List StandardizedDealer)) :
    List IndexEntry × List IndexEntry :=
  dealers_by_oem.foldl
    (fun acc batch =>
      batch.2.foldl
        (fun acc d =>
          let pk := normalize_phone d.phone
          let dk := normalize_domain d.domain
          let pIdx := if pk ≠ "" then indexAdd acc.1 pk (batch.1, d) else acc.1
          let dIdx := if dk ≠ "" then indexAdd acc.2 dk (batch.1, d) else acc.2
          (pIdx, dIdx))
        acc)
    ([], [])

/-- Python `max(all_dealers, key=lambda d: (d.rating, d.review_count))`:
fold keeping the first element whose key is maximal. -/
def maxByRating (d : StandardizedDealer) (rest : List StandardizedDealer) :
    StandardizedDealer :=
  rest.foldl
    (fun best x =>
      if best.rating < x.rating ∨
          (best.rating = x.rating ∧ best.review_count < x.review_count)
      then x else best)
    d

/-- The condition under which the phone pass appends the `"domain"` signal:
the primary's normalized domain is non-empty and every record that has a
domain normalizes to it. -/
def domainSignalCond (primary : StandardizedDealer)
    (all_dealers : List StandardizedDealer) : Prop :=
  normalize_domain primary.domain ≠ "" ∧
    ∀ d ∈ all_dealers, d.domain ≠ "" →
      normalize_domain d.domain = normalize_domain primary.domain

instance (primary : StandardizedDealer) (all_dealers : List StandardizedDealer) :
    Decidable (domainSignalCond primary all_dealers) := by
  unfold domainSignalCond; infer_instance

/-- The condition under which the phone pass appends the `"name"` signal:
every record's name fuzzy-matches the primary's name (default threshold). -/
def nameSignalCond (primary : StandardizedDealer)
    (all_dealers : List StandardizedDealer) : Prop :=
  ∀ d ∈ all_dealers, (fuzzy_name_match primary.name d.name).1 = true

instance (primary : StandardizedDealer) (all_dealers : List StandardizedDealer) :
    Decidable (nameSignalCond primary all_dealers) := by
  unfold nameSignalCond; infer_instance

/-- The accumulated signal list of the phone pass: `"phone"` always, then
`"domain"` when `A` holds, then `"name"` when `B` holds. -/
def buildSignals (A B : Prop) [Decidable A] [Decidable B] : List String :=
  ["phone"] ++ (if A then ["domain"] else []) ++ (if B then ["name"] else [])

/-- The body of the phone-matching loop for one bucket: `none` when the bucket
is skipped, otherwise the constructed match together with the
`(phone_norm, domain_norm)` pair recorded in `processed_combinations`. -/
def phonePassStep (min_oem_count : Nat) (phone_norm : String)
    (entries : List (String × StandardizedDealer)) :
    Option (MultiOEMMatch × (String × String)) :=
  match entries with
  | [] => none
  | e :: es =>
    if entries.length < min_oem_count then none
    else
      let oem_sources := (entries.map Prod.fst).toFinset
      if oem_sources.card < min_oem_count then none
      else
        let all_dealers := entries.map Prod.snd
        let primary := maxByRating e.2 (es.map Prod.snd)
        let domain_norm := normalize_domain primary.domain
        let match_signals := buildSignals
          (domainSignalCond primary all_dealers) (nameSignalCond primary all_dealers)
        let confidence := min (match_signals.length * 30 + 10) 100
        some
          ({ primary_dealer := primary
             oem_sources := oem_sources
             dealer_records := all_dealers
             match_confidence := confidence
             match_signals := match_signals
             multi_oem_score := calculate_multi_oem_score oem_sources.card },
           (phone_norm, domain_norm))

/-- The phone-matching loop over the whole phone index, returning the matches
and the `processed_combinations` pairs in bucket order. -/
def phonePass (min_oem_count : Nat) :
    List IndexEntry → List MultiOEMMatch × List (String × String)
  | [] => ([], [])
  | (pk, entries) :: rest =>
    let tail := phonePass min_oem_count rest
    match phonePassStep min_oem_count pk entries with
    | none => tail
    | some (m, pr) => (m :: tail.1, pr :: tail.2)

/-- The body of the domain-matching loop for one bucket, guarded by the
`processed_combinations` built in the phone pass. -/
def domainPassStep (min_oem_count : Nat) (domain_norm : String)
    (entries : List (String × StandardizedDealer))
    (processed : List (String × String)) : Option MultiOEMMatch :=
  match entries with
  | [] => none
  | e :: es =>
    if entries.length < min_oem_count then none
    else if (normalize_phone e.2.phone, domain_norm) ∈ processed then none
    else
      let oem_sources := (entries.map Prod.fst).toFinset
      if oem_sources.card < min_oem_count then none
      else
        some
          { primary_dealer := maxByRating e.2 (es.map Prod.snd)
            oem_sources := oem_sources
            dealer_records := entries.map Prod.snd
            match_confidence := 60
            match_signals := ["domain"]
            multi_oem_score := calculate_multi_oem_score oem_sources.card }

/-- The domain-matching loop over the whole domain index. -/
def domainPass (min_oem_count : Nat) (processed : List (String × String)) :
    List IndexEntry → List MultiOEMMatch
  | [] => []
  | (dk, entries) :: rest =>
    let tail := domainPass min_oem_count processed rest
    match domainPassStep min_oem_count dk entries processed with
    | none => tail
    | some m => m :: tail

/-- The sort key comparison: lexicographic `<` on
`(multi_oem_score, match_confidence)`. -/
def matchKeyLt (a b : MultiOEMMatch) : Prop :=
  a.multi_oem_score < b.multi_oem_score ∨
    (a.multi_oem_score = b.multi_oem_score ∧
      a.match_confidence < b.match_confidence)

instance : DecidablePred fun p : MultiOEMMatch × MultiOEMMatch => matchKeyLt p.1 p.2 :=
  fun _ => by unfold matchKeyLt; infer_instance

instance (a b : MultiOEMMatch) : Decidable (matchKeyLt a b) := by
  unfold matchKeyLt; infer_instance

/-- Insert a match into a descending-sorted list, after every element whose
key is ≥ its own: the effect of a stable descending sort inserting elements
in their original order. -/
def insertDesc (x : MultiOEMMatch) : List MultiOEMMatch → List MultiOEMMatch
  | [] => [x]
  | y :: ys => if matchKeyLt y x then x :: y :: ys else y :: insertDesc x ys

/-- `matches.sort(key=lambda m: (m.multi_oem_score, m.match_confidence),
reverse=True)`: stable descending sort by the lexicographic key. -/
def sortMatches (l : List MultiOEMMatch) : List MultiOEMMatch :=
  l.foldl (fun acc x => insertDesc x acc) []

/-- `MultiOEMDetector.find_multi_oem_contractors`, as a function of the
registered `dealers_by_oem` batches: build both indexes, run the phone pass,
run the domain pass against the processed combinations, and sort. -/
def find_multi_oem_contractors
    (dealers_by_oem : List (String × List StandardizedDealer))
    (min_oem_count : Nat := 2) : List MultiOEMMatch :=
  let idx := buildIndexes dealers_by_oem
  let phase1 := phonePass min_oem_count idx.1
  let phase2 := domainPass min_oem_count phase1.2 idx.2
  sortMatches (phase1.1 ++ phase2)

/-- The detector's state: the insertion-ordered dict `dealers_by_oem` and the
cached `multi_oem_matches` of the last run. -/
structure MultiOEMDetector where
  dealers_by_oem : List (String × List StandardizedDealer) := []
  multi_oem_matches : List MultiOEMMatch := []
deriving DecidableEq

/-- Python dict assignment `d[k] = v`: overwrite in place when the key exists
(keeping its position), append otherwise. -/
def updateAssoc (l : List (String × List StandardizedDealer)) (key : String)
    (v : List StandardizedDealer) : List (String × List StandardizedDealer) :=
  match l with
  | [] => [(key, v)]
  | (k, w) :: rest =>
    if k = key then (k, v) :: rest else (k, w) :: updateAssoc rest key v

/-- `MultiOEMDetector.add_dealers`: `self.dealers_by_oem[oem_name] = dealers`. -/
def MultiOEMDetector.add_dealers (st : MultiOEMDetector)
    (dealers : List StandardizedDealer) (oem_name : String) : MultiOEMDetector :=
  { st with dealers_by_oem := updateAssoc st.dealers_by_oem oem_name dealers }

/-- A full `find_multi_oem_contractors` call on the detector object: returns
the matches and the detector with `self.multi_oem_matches` updated. -/
def MultiOEMDetector.find_run (st : MultiOEMDetector) (min_oem_count : Nat) :
    List MultiOEMMatch × MultiOEMDetector :=
  let ms := find_multi_oem_contractors st.dealers_by_oem min_oem_count
  (ms, { st with multi_oem_matches := ms })

/-- Scenario input (spec §8, phone match across 3 OEMs): the Generac record. -/
def dealerGeneracABC : StandardizedDealer :=
  { name := "ABC Electric", phone := "(555) 123-4567", domain := "" }

/-- Scenario input: the Tesla record. -/
def dealerTeslaABC : StandardizedDealer :=
  { name := "ABC Electric LLC", phone := "555-123-4567", domain := "" }

/-- Scenario input: the Enphase record. -/
def dealerEnphaseABC : StandardizedDealer :=
  { name := "Abc Electric", phone := "5551234567", domain := "" }

/-- The three-OEM batch registration for the phone-match scenario. -/
def batchesPhoneScenario : List (String × List StandardizedDealer) :=
  [("Generac", [dealerGeneracABC]), ("Tesla", [dealerTeslaABC]),
   ("Enphase", [dealerEnphaseABC])]

/-- Scenario input (spec §8, domain-only match): first record, OEM Generac. -/
def dealerDomainOnlyA : StandardizedDealer :=
  { name := "ABC Electric", phone := "555-111-2222", domain := "abcelectric.com" }

/-- Scenario input (domain-only match): second record, OEM Tesla, different
phone whose normalization is distinct. -/
def dealerDomainOnlyB : StandardizedDealer :=
  { name := "ABC Electric Inc", phone := "555-333-4444", domain := "abcelectric.com" }

/-- The two-OEM batch registration for the domain-only scenario. -/
def batchesDomainScenario : List (String × List StandardizedDealer) :=
  [("Generac", [dealerDomainOnlyA]), ("Tesla", [dealerDomainOnlyB])]

example :
    (find_multi_oem_contractors batchesPhoneScenario 2).map
      (fun m => (m.match_confidence, m.match_signals, m.multi_oem_score,
        m.oem_sources.card)) =
    [(70, ["phone", "name"], 100, 3)] := by decide

example :
    (find_multi_oem_contractors batchesDomainScenario 2).map
      (fun m => (m.match_confidence, m.match_signals, m.multi_oem_score,
        m.dealer_records)) =
    [(60, ["domain"], 60, [dealerDomainOnlyA, dealerDomainOnlyB])] := by decide

/-- `targeting/srec_itc_filter.py` `SRECPriority`. -/
inductive SRECPriority where
  | HIGH
  | MEDIUM
  | LOW
deriving DecidableEq, Repr

/-- `targeting/srec_itc_filter.py` `ITCUrgency`. -/
inductive ITCUrgency where
  | CRITICAL
  | HIGH
  | MEDIUM
  | LOW
deriving DecidableEq, Repr

/-- The `SREC_STATES` table, reduced to the fields the filter logic reads:
the state codes present and their priority. -/
def SREC_STATES : List (String × SRECPriority) :=
  [("CA", .HIGH), ("TX", .HIGH), ("PA", .HIGH), ("MA", .HIGH), ("NJ", .HIGH),
   ("FL", .HIGH),
   ("OH", .MEDIUM), ("MD", .MEDIUM), ("DC", .MEDIUM), ("DE", .MEDIUM),
   ("NH", .MEDIUM), ("RI", .MEDIUM), ("CT", .MEDIUM), ("IL", .MEDIUM)]

/-- Uppercase a string character by character (Python `str.upper()` on the
ASCII state codes handled here). -/
def upperStr (s : String) : String := String.mk (s.data.map Char.toUpper)

/-- `SRECITCFilter.is_srec_state`: `state_code.upper() in SREC_STATES`. -/
def is_srec_state (state_code : String) : Bool :=
  SREC_STATES.any (fun p => p.1 = upperStr state_code)

/-- Proleptic-Gregorian day number of a calendar date (the civil-from-days
formula), so that Python `date` subtraction `(d1 - d2).days` is the
difference of day numbers.  Valid for the post-1582 dates used here. -/
def dayNumber (y m d : Nat) : Int :=
  let y' := if m ≤ 2 then y - 1 else y
  let era := y' / 400
  let yoe := y' - era * 400
  let mp := (m + 9) % 12
  let doy := (153 * mp + 2) / 5 + d - 1
  let doe := yoe * 365 + yoe / 4 - yoe / 100 + doy
  (era * 146097 + doe : Int) - 719468

/-- `ITC_RESIDENTIAL_DEADLINE = date(2025, 12, 31)` as a day number. -/
def ITC_RESIDENTIAL_DEADLINE : Int := dayNumber 2025 12 31

/-- `ITC_COMMERCIAL_SAFE_HARBOR = date(2026, 6, 30)` as a day number. -/
def ITC_COMMERCIAL_SAFE_HARBOR : Int := dayNumber 2026 6 30

/-- `SRECITCFilter.calculate_itc_urgency`, with the reference date given as a
day number: commercial contractors with `0 < days-to-safe-harbor ≤ 365` are
CRITICAL, non-commercial ones with `0 < days-to-residential-deadline ≤ 180`
are HIGH, SREC states are MEDIUM, everyone else LOW. -/
def calculate_itc_urgency (state_code : String) (is_commercial : Bool)
    (reference_day : Int) : ITCUrgency :=
  let is_srec := is_srec_state state_code
  let days_to_commercial := ITC_COMMERCIAL_SAFE_HARBOR - reference_day
  let days_to_residential := ITC_RESIDENTIAL_DEADLINE - reference_day
  if is_commercial ∧ days_to_commercial ≤ 365 ∧ 0 < days_to_commercial then
    .CRITICAL
  else if ¬is_commercial ∧ days_to_residential ≤ 180 ∧ 0 < days_to_residential then
    .HIGH
  else if is_srec then .MEDIUM
  else .LOW

/-- The `WEALTHY_ZIPS` table of `targeting/coperniq_lead_scorer.py`: the six
covered states with their ZIP lists in source order. -/
def WEALTHY_ZIPS : List (String × List String) :=
  [("CA",
    ["94027", "94301", "94304", "94022", "94024",
     "90210", "90212", "90265", "90272", "92657", "92660", "92662", "92037",
     "92067",
     "94920", "94028", "94956", "93108", "92625"]),
   ("TX",
    ["77019", "77024", "77005", "77056",
     "75205", "75225", "75229",
     "78746", "78733", "78730",
     "78734", "77007", "76107"]),
   ("PA",
    ["19035", "19003", "19087", "19085", "19301",
     "15215", "15238",
     "19010", "19041", "19066"]),
   ("MA",
    ["02467", "02481", "02492", "02445", "02482", "02459", "02468", "01752",
     "02142", "02138", "02139"]),
   ("NJ",
    ["07078", "07920", "07931", "07039", "07726", "07733", "08540", "07869",
     "07046", "07670", "07450"]),
   ("FL",
    ["33109", "33158", "33156",
     "33480", "33455",
     "34102", "34103",
     "33606", "33629",
     "33139", "33004"])]

/-- Dict lookup `self.wealthy_zips[state]` (with the preceding
`state not in self.wealthy_zips` membership test). -/
def lookupZips (state : String) : Option (List String) :=
  (WEALTHY_ZIPS.find? (fun p => p.1 = state)).map Prod.snd

/-- `CoperniqLeadScorer.score_geographic_value`, as a function of the primary
dealer's `state` and `zip`: 0 for a state absent from `WEALTHY_ZIPS`, 10 for
a ZIP among the first 10 entries of the state's list, 7 for any other member
of the list, 3 otherwise. -/
def score_geographic_value (state : String) (zip_code : String) : Nat × String :=
  match lookupZips state with
  | none => (0, s!"State {state} not in wealthy ZIP database")
  | some zips =>
    if zip_code ∈ zips.take 10 then
      (10, s!"ZIP {zip_code} in top 10 wealthy ZIPs for {state}")
    else if zip_code ∈ zips then
      (7, s!"ZIP {zip_code} in top 30 wealthy ZIPs for {state}")
    else
      (3, s!"ZIP {zip_code} in {state} (standard territory)")

example : ITC_COMMERCIAL_SAFE_HARBOR - ITC_RESIDENTIAL_DEADLINE = 181 := by decide
example :
    calculate_itc_urgency "CA" true (ITC_COMMERCIAL_SAFE_HARBOR - 300) =
      .CRITICAL := by decide
example :
    calculate_itc_urgency "CA" false (ITC_RESIDENTIAL_DEADLINE - 300) =
      .MEDIUM := by decide
example : (score_geographic_value "NY" "10001").1 = 0 := by decide
example : (score_geographic_value "CA" "94027").1 = 10 := by decide
example : (score_geographic_value "CA" "92625").1 = 7 := by decide
example : (score_geographic_value "CA" "90001").1 = 3 := by decide

example : normalize_phone "+1 (555) 123-4567" = "5551234567" := by decide
example : normalize_phone "555.123.4567" = "5551234567" := by decide
example : normalize_domain "www.Example.com" = "example.com" := by decide
example : normalize_domain "sub.example.co.uk" = "example.co.uk" := by decide
example : normalize_name "ABC Electric, LLC" = "abc electric" := by decide
example : (fuzzy_name_match "ABC Electric" "Abc Electric LLC").1 = true := by decide

/-- The expected resolver output for the phone-match scenario. -/
def expectedPhoneScenarioMatch : MultiOEMMatch :=
  { primary_dealer := dealerGeneracABC
    oem_sources := {"Generac", "Tesla", "Enphase"}
    dealer_records := [dealerGeneracABC, dealerTeslaABC, dealerEnphaseABC]
    match_confidence := 70
    match_signals := ["phone", "name"]
    multi_oem_score := 100 }

/-- The expected resolver output for the domain-only scenario. -/
def expectedDomainScenarioMatch : MultiOEMMatch :=
  { primary_dealer := dealerDomainOnlyA
    oem_sources := {"Generac", "Tesla"}
    dealer_records := [dealerDomainOnlyA, dealerDomainOnlyB]
    match_confidence := 60
    match_signals := ["domain"]
    multi_oem_score := 60 }

lemma mem_insertDesc {m x : MultiOEMMatch} {l : List MultiOEMMatch} :
    m ∈ insertDesc x l ↔ m = x ∨ m ∈ l := by
  induction l with
  | nil => simp [insertDesc]
  | cons y ys ih =>
    rw [insertDesc]
    split
    · simp [List.mem_cons]
    · simp only [List.mem_cons, ih]
      tauto

lemma mem_sortMatches_aux {m : MultiOEMMatch} (l acc : List MultiOEMMatch) :
    m ∈ l.foldl (fun a x => insertDesc x a) acc ↔ m ∈ acc ∨ m ∈ l := by
  induction l generalizing acc with
  | nil => simp
  | cons x xs ih =>
    rw [List.foldl_cons, ih]
    rw [mem_insertDesc]
    simp only [List.mem_cons]
    tauto

lemma mem_sortMatches {m : MultiOEMMatch} {l : List MultiOEMMatch} :
    m ∈ sortMatches l ↔ m ∈ l := by
  rw [sortMatches, mem_sortMatches_aux]
  simp

lemma calculate_multi_oem_score_step (n : Nat) :
    (n = 1 → calculate_multi_oem_score n = 20) ∧
    (n = 2 → calculate_multi_oem_score n = 60) ∧
    (3 ≤ n → calculate_multi_oem_score n = 100) := by
  unfold calculate_multi_oem_score
  refine ⟨fun h => ?_, fun h => ?_, fun h => ?_⟩ <;> subst_eqs <;> simp_all

lemma phonePassStep_count_score {k : Nat} {pk : String}
    {entries : List (String × StandardizedDealer)} {m : MultiOEMMatch}
    {pr : String × String} (h : phonePassStep k pk entries = some (m, pr)) :
    k ≤ m.oem_sources.card ∧
      m.multi_oem_score = calculate_multi_oem_score m.oem_sources.card := by
  cases entries with
  | nil => simp [phonePassStep] at h
  | cons e es =>
    simp only [phonePassStep] at h
    split at h
    · exact absurd h (by simp)
    · split at h
      · exact absurd h (by simp)
      · rename_i hlen hcard
        rw [Option.some.injEq] at h
        injection h with h1 h2
        subst h1
        exact ⟨Nat.le_of_not_lt hcard, rfl⟩

lemma domainPassStep_count_score {k : Nat} {dk : String}
    {entries : List (String × StandardizedDealer)}
    {procs : List (String × String)} {m : MultiOEMMatch}
    (h : domainPassStep k dk entries procs = some m) :
    k ≤ m.oem_sources.card ∧
      m.multi_oem_score = calculate_multi_oem_score m.oem_sources.card := by
  cases entries with
  | nil => simp [domainPassStep] at h
  | cons e es =>
    simp only [domainPassStep] at h
    split at h
    · exact absurd h (by simp)
    · split at h
      · exact absurd h (by simp)
      · split at h
        · exact absurd h (by simp)
        · rename_i hlen hproc hcard
          rw [Option.some.injEq] at h
          subst h
          exact ⟨Nat.le_of_not_lt hcard, rfl⟩

lemma buildSignals_spec (A B : Prop) [Decidable A] [Decidable B] :
    "phone" ∈ buildSignals A B ∧ ("domain" ∈ buildSignals A B ↔ A) ∧
      ("name" ∈ buildSignals A B ↔ B) := by
  unfold buildSignals
  by_cases hA : A <;> by_cases hB : B <;>
    refine ⟨?_, ?_, ?_⟩ <;>
    simp only [if_pos, if_neg, hA, hB, iff_true, iff_false, not_false_iff] <;>
    decide

lemma phonePassStep_signals {k : Nat} {pk : String}
    {entries : List (String × StandardizedDealer)} {m : MultiOEMMatch}
    {pr : String × String} (h : phonePassStep k pk entries = some (m, pr)) :
    "phone" ∈ m.match_signals ∧
      ("domain" ∈ m.match_signals ↔
        domainSignalCond m.primary_dealer m.dealer_records) ∧
      ("name" ∈ m.match_signals ↔
        nameSignalCond m.primary_dealer m.dealer_records) ∧
      m.match_confidence = min (m.match_signals.length * 30 + 10) 100 := by
  cases entries with
  | nil => simp [phonePassStep] at h
  | cons e es =>
    simp only [phonePassStep] at h
    split at h
    · exact absurd h (by simp)
    · split at h
      · exact absurd h (by simp)
      · rw [Option.some.injEq] at h
        injection h with h1 h2
        subst h1
        exact ⟨(buildSignals_spec _ _).1, (buildSignals_spec _ _).2.1,
          (buildSignals_spec _ _).2.2, rfl⟩

lemma domainPassStep_signals {k : Nat} {dk : String}
    {entries : List (String × StandardizedDealer)}
    {procs : List (String × String)} {m : MultiOEMMatch}
    (h : domainPassStep k dk entries procs = some m) :
    m.match_signals = ["domain"] ∧ m.match_confidence = 60 := by
  cases entries with
  | nil => simp [domainPassStep] at h
  | cons e es =>
    simp only [domainPassStep] at h
    split at h
    · exact absurd h (by simp)
    · split at h
      · exact absurd h (by simp)
      · split at h
        · exact absurd h (by simp)
        · rw [Option.some.injEq] at h
          subst h
          exact ⟨rfl, rfl⟩

lemma mem_phonePass {k : Nat} {idx : List IndexEntry} {m : MultiOEMMatch}
    (hm : m ∈ (phonePass k idx).1) :
    ∃ pk entries pr, phonePassStep k pk entries = some (m, pr) := by
  induction idx with
  | nil => simp [phonePass] at hm
  | cons p rest ih =>
    obtain ⟨pk, entries⟩ := p
    rw [phonePass] at hm
    cases h : phonePassStep k pk entries with
    | none => rw [h] at hm; exact ih hm
    | some v =>
      obtain ⟨m', pr⟩ := v
      rw [h] at hm
      rcases List.mem_cons.mp hm with h' | h'
      · exact ⟨pk, entries, pr, h' ▸ h⟩
      · exact ih h'

lemma mem_domainPass {k : Nat} {procs : List (String × String)}
    {idx : List IndexEntry} {m : MultiOEMMatch}
    (hm : m ∈ domainPass k procs idx) :
    ∃ dk entries, domainPassStep k dk entries procs = some m := by
  induction idx with
  | nil => simp [domainPass] at hm
  | cons p rest ih =>
    obtain ⟨dk, entries⟩ := p
    rw [domainPass] at hm
    cases h : domainPassStep k dk entries procs with
    | none => rw [h] at hm; exact ih hm
    | some m' =>
      rw [h] at hm
      rcases List.mem_cons.mp hm with h' | h'
      · exact ⟨dk, entries, h' ▸ h⟩
      · exact ih h'

lemma mem_find_cases {byOem : List (String × List StandardizedDealer)}
    {k : Nat} {m : MultiOEMMatch}
    (hm : m ∈ find_multi_oem_contractors byOem k) :
    (∃ pk entries pr, phonePassStep k pk entries = some (m, pr)) ∨
      (∃ dk entries,
        domainPassStep k dk entries (phonePass k (buildIndexes byOem).1).2 =
          some m) := by
  rw [find_multi_oem_contractors] at hm
  rw [mem_sortMatches] at hm
  rcases List.mem_append.mp hm with h | h
  · exact Or.inl (mem_phonePass h)
  · exact Or.inr (mem_domainPass h)

/-- C2. For every ResolvedContractor produced by
`find_multi_oem_contractors(min_oem_count)`, the set of distinct OEM names has
size at least `min_oem_count`, and the multi-OEM score is the step function of
the OEM count: 1 OEM gives 20, 2 give 60, 3 or more give 100. -/
theorem resolve_oem_count_ge_min_and_score_step
    (byOem : List (String × List StandardizedDealer)) (min_oem_count : Nat)
    (m : MultiOEMMatch) (hm : m ∈ find_multi_oem_contractors byOem min_oem_count) :
    min_oem_count ≤ m.oem_sources.card ∧
      (m.oem_sources.card = 1 → m.multi_oem_score = 20) ∧
      (m.oem_sources.card = 2 → m.multi_oem_score = 60) ∧
      (3 ≤ m.oem_sources.card → m.multi_oem_score = 100) := by
  have hcs : min_oem_count ≤ m.oem_sources.card ∧
      m.multi_oem_score = calculate_multi_oem_score m.oem_sources.card := by
    rcases mem_find_cases hm with ⟨pk, entries, pr, h⟩ | ⟨dk, entries, h⟩
    · exact phonePassStep_count_score h
    · exact domainPassStep_count_score h
  obtain ⟨h1, h2⟩ := hcs
  have hstep := calculate_multi_oem_score_step m.oem_sources.card
  exact ⟨h1, fun h => h2.trans (hstep.1 h), fun h => h2.trans (hstep.2.1 h),
    fun h => h2.trans (hstep.2.2 h)⟩

/-- Witness for C2: the phone-match scenario's output satisfies the invariant
at `min_oem_count = 2` with 3 OEMs and score 100. -/
theorem resolve_oem_count_ge_min_and_score_step_witness :
    expectedPhoneScenarioMatch ∈
        find_multi_oem_contractors batchesPhoneScenario 2 ∧
      (2 ≤ expectedPhoneScenarioMatch.oem_sources.card ∧
        (expectedPhoneScenarioMatch.oem_sources.card = 1 →
          expectedPhoneScenarioMatch.multi_oem_score = 20) ∧
        (expectedPhoneScenarioMatch.oem_sources.card = 2 →
          expectedPhoneScenarioMatch.multi_oem_score = 60) ∧
        (3 ≤ expectedPhoneScenarioMatch.oem_sources.card →
          expectedPhoneScenarioMatch.multi_oem_score = 100)) :=
  ⟨by decide,
    resolve_oem_count_ge_min_and_score_step batchesPhoneScenario 2
      expectedPhoneScenarioMatch (by decide)⟩

/-- C1 counterexample: in the three-OEM phone-match scenario the single
returned contractor has match confidence 70 (signals phone and name give
2 × 30 + 10), not 100 as claimed. -/
theorem phone_scenario_confidence_is_70 :
    (find_multi_oem_contractors batchesPhoneScenario 2).map
      (fun m => m.match_confidence) = [70] := by decide

/-- C1 (amended). The three-OEM phone-match scenario resolves to exactly one
contractor with oem_sources {Generac, Tesla, Enphase}, match signals
["phone", "name"], confidence 70 and multi-OEM score 100. -/
theorem phone_scenario_single_match :
    find_multi_oem_contractors batchesPhoneScenario 2 =
      [expectedPhoneScenarioMatch] := by decide

/-- C3. Every phone-based group produced by the resolver (a result carrying
the "phone" signal) carries "domain" exactly when the primary's normalized
domain is non-empty and every record with a domain normalizes to it, carries
"name" exactly when every record fuzzy-matches the primary's name, and its
confidence is `min (30 × #signals + 10) 100`, i.e. 40 / 70 / 100 for
1 / 2 / 3 signals. -/
theorem phone_group_signals_and_confidence
    (byOem : List (String × List StandardizedDealer)) (min_oem_count : Nat)
    (m : MultiOEMMatch)
    (hm : m ∈ find_multi_oem_contractors byOem min_oem_count)
    (hp : "phone" ∈ m.match_signals) :
    ("domain" ∈ m.match_signals ↔
      (normalize_domain m.primary_dealer.domain ≠ "" ∧
        ∀ d ∈ m.dealer_records, d.domain ≠ "" →
          normalize_domain d.domain = normalize_domain m.primary_dealer.domain)) ∧
      ("name" ∈ m.match_signals ↔
        ∀ d ∈ m.dealer_records,
          (fuzzy_name_match m.primary_dealer.name d.name).1 = true) ∧
      m.match_confidence = min (m.match_signals.length * 30 + 10) 100 ∧
      (m.match_signals.length = 1 → m.match_confidence = 40) ∧
      (m.match_signals.length = 2 → m.match_confidence = 70) ∧
      (m.match_signals.length = 3 → m.match_confidence = 100) := by
  rcases mem_find_cases hm with ⟨pk, entries, pr, h⟩ | ⟨dk, entries, h⟩
  · obtain ⟨_, hdom, hname, hconf⟩ := phonePassStep_signals h
    refine ⟨hdom, hname, hconf, ?_, ?_, ?_⟩ <;> intro hl <;> rw [hconf, hl] <;> decide
  · obtain ⟨hsig, _⟩ := domainPassStep_signals h
    rw [hsig] at hp
    exact absurd hp (by decide)

/-- Witness for C3: the phone-match scenario's output is a phone-based group
with 2 signals and confidence 70. -/
theorem phone_group_signals_and_confidence_witness :
    (expectedPhoneScenarioMatch ∈
        find_multi_oem_contractors batchesPhoneScenario 2 ∧
      "phone" ∈ expectedPhoneScenarioMatch.match_signals) ∧
      (expectedPhoneScenarioMatch.match_signals.length = 2 →
        expectedPhoneScenarioMatch.match_confidence = 70) :=
  ⟨⟨by decide, by decide⟩,
    (phone_group_signals_and_confidence batchesPhoneScenario 2
      expectedPhoneScenarioMatch (by decide) (by decide)).2.2.2.2.1⟩

/-- C4. Two DealerRecords from two different OEMs sharing the domain
"abcelectric.com" with distinct normalized phones resolve to exactly one
contractor containing both records, with confidence 60 and signals
["domain"]. -/
theorem domain_scenario_confidence_60 :
    normalize_phone dealerDomainOnlyA.phone ≠
        normalize_phone dealerDomainOnlyB.phone ∧
      find_multi_oem_contractors batchesDomainScenario 2 =
        [expectedDomainScenarioMatch] := by decide

/-- C5 counterexample: a non-commercial contractor in "CA" evaluated exactly
300 days before the residential deadline gets urgency MEDIUM (the HIGH band
requires at most 180 days remaining), not HIGH as claimed. -/
theorem residential_300_days_not_high :
    calculate_itc_urgency "CA" false (ITC_RESIDENTIAL_DEADLINE - 300) =
        ITCUrgency.MEDIUM ∧
      calculate_itc_urgency "CA" false (ITC_RESIDENTIAL_DEADLINE - 300) ≠
        ITCUrgency.HIGH := by decide

/-- C5 (amended). A commercial contractor 300 days before the commercial
safe-harbor deadline is CRITICAL for every state; a non-commercial contractor
300 days before the residential deadline is never CRITICAL, but it is not
HIGH either (that band requires ≤ 180 days): it is MEDIUM in SREC states and
LOW otherwise. -/
theorem itc_urgency_300_days (state_code : String) :
    calculate_itc_urgency state_code true (ITC_COMMERCIAL_SAFE_HARBOR - 300) =
        ITCUrgency.CRITICAL ∧
      calculate_itc_urgency state_code false (ITC_RESIDENTIAL_DEADLINE - 300) =
        (if is_srec_state state_code then ITCUrgency.MEDIUM else ITCUrgency.LOW) ∧
      calculate_itc_urgency state_code false (ITC_RESIDENTIAL_DEADLINE - 300) ≠
        ITCUrgency.CRITICAL := by
  refine ⟨?_, ?_, ?_⟩
  · simp only [calculate_itc_urgency]
    rw [if_pos (by decide)]
  · simp only [calculate_itc_urgency]
    rw [if_neg (by decide), if_neg (by decide)]
  · simp only [calculate_itc_urgency]
    rw [if_neg (by decide), if_neg (by decide)]
    split <;> decide

/-- C6 (the code has no fail-fast validation): `find_multi_oem_contractors`
with `min_oem_count = 0` silently proceeds and emits two single-OEM groups,
and `fuzzy_name_match` with threshold 2.0 (outside (0,1]) silently proceeds
and still reports a match. -/
theorem no_validation_of_min_oem_count_or_threshold :
    (find_multi_oem_contractors batchesDomainScenario 0).map
        (fun m => (m.oem_sources.card, m.multi_oem_score, m.match_confidence)) =
        [(1, 20, 100), (1, 20, 100)] ∧
      fuzzy_name_match "ABC Electric" "ABC Electric" 2 = (true, 1) := by decide

/-- C7. Running `find_multi_oem_contractors` twice on the same detector with
the same `min_oem_count`, without touching the registered batches in between,
returns the identical result list (content and order) and leaves the detector
in the same state: the run reads only `dealers_by_oem`, which it preserves. -/
theorem resolve_idempotent (st : MultiOEMDetector) (min_oem_count : Nat) :
    ((st.find_run min_oem_count).2.find_run min_oem_count).1 =
        (st.find_run min_oem_count).1 ∧
      ((st.find_run min_oem_count).2.find_run min_oem_count).2 =
        (st.find_run min_oem_count).2 :=
  ⟨rfl, rfl⟩

lemma updateAssoc_twice (l : List (String × List StandardizedDealer))
    (key : String) (v1 v2 : List StandardizedDealer) :
    updateAssoc (updateAssoc l key v1) key v2 = updateAssoc l key v2 := by
  induction l with
  | nil => simp [updateAssoc]
  | cons p rest ih =>
    obtain ⟨k, w⟩ := p
    by_cases h : k = key <;> simp [updateAssoc, h, ih]

lemma find?_updateAssoc (l : List (String × List StandardizedDealer))
    (key : String) (v : List StandardizedDealer) :
    ((updateAssoc l key v).find? (fun p => p.1 == key)).map Prod.snd = some v := by
  induction l with
  | nil => simp [updateAssoc]
  | cons p rest ih =>
    obtain ⟨k, w⟩ := p
    by_cases h : k = key <;> simp [updateAssoc, h, ih]

/-- C9. A second `add_dealers` call under the same OEM label overwrites the
earlier batch: the resulting detector is the one obtained from the second
call alone (so resolution sees only the most recent records, here confirmed
by the lookup), and the records of the first call are discarded. -/
theorem add_dealers_overwrites_previous_batch (st : MultiOEMDetector)
    (ds1 ds2 : List StandardizedDealer) (oem_name : String) (min_oem_count : Nat) :
    (st.add_dealers ds1 oem_name).add_dealers ds2 oem_name =
        st.add_dealers ds2 oem_name ∧
      ((st.add_dealers ds2 oem_name).dealers_by_oem.find?
          (fun p => p.1 == oem_name)).map Prod.snd = some ds2 ∧
      ((st.add_dealers ds1 oem_name).add_dealers ds2 oem_name).find_run
          min_oem_count =
        (st.add_dealers ds2 oem_name).find_run min_oem_count := by
  have hst : (st.add_dealers ds1 oem_name).add_dealers ds2 oem_name =
      st.add_dealers ds2 oem_name := by
    simp [MultiOEMDetector.add_dealers, updateAssoc_twice]
  exact ⟨hst, find?_updateAssoc st.dealers_by_oem oem_name ds2, by rw [hst]⟩

/-- C8 counterexample: a contractor in Washington state — absent from the
wealthy-ZIP table — scores 0 on the geography dimension, refuting "the
geography score is never zero". -/
theorem geographic_score_zero_for_uncovered_state :
    lookupZips "WA" = none ∧ (score_geographic_value "WA" "98039").1 = 0 := by
  decide

/-- C8 (amended). The geography score is 10 when the contractor's state is in
the wealthy-ZIP table and the ZIP is among the first 10 entries of that
state's list, 7 for any other member of the list, 3 when the state is covered
but the ZIP is not in the list (always positive in the covered case), and 0
exactly when the state is absent from the table. -/
theorem geographic_score_characterization (state zip_code : String) :
    (lookupZips state = none → (score_geographic_value state zip_code).1 = 0) ∧
      ∀ zips, lookupZips state = some zips →
        ((zip_code ∈ zips.take 10 →
            (score_geographic_value state zip_code).1 = 10) ∧
          (zip_code ∉ zips.take 10 → zip_code ∈ zips →
            (score_geographic_value state zip_code).1 = 7) ∧
          (zip_code ∉ zips → (score_geographic_value state zip_code).1 = 3) ∧
          0 < (score_geographic_value state zip_code).1) := by
  unfold score_geographic_value
  cases hl : lookupZips state with
  | none => exact ⟨fun _ => rfl, fun zips hz => absurd hz (by simp)⟩
  | some zips =>
    refine ⟨fun h => absurd h (by simp), fun zips' hz => ?_⟩
    obtain rfl : zips = zips' := by injection hz
    dsimp only
    refine ⟨fun h10 => by rw [if_pos h10],
      fun h10 hmem => by rw [if_neg h10, if_pos hmem], fun hnm => ?_, ?_⟩
    · have h10 : zip_code ∉ zips.take 10 := fun h => hnm (List.take_subset _ _ h)
      rw [if_neg h10, if_neg hnm]
    · split_ifs <;> simp

/-- Witness for C8: a New York contractor hits the uncovered-state case and
scores 0. -/
theorem geographic_score_characterization_witness :
    lookupZips "NY" = none ∧ (score_geographic_value "NY" "10001").1 = 0 :=
  ⟨by decide, (geographic_score_characterization "NY" "10001").1 (by decide)⟩

/-- C10. On or after the commercial safe-harbor deadline the urgency is never
CRITICAL and never HIGH, for any state and either commercial flag: both
deadline branches require strictly positive days remaining, so the result is
MEDIUM for SREC-table states and LOW otherwise. -/
theorem urgency_after_safe_harbor_never_critical_or_high (reference_day : Int)
    (state_code : String) (is_commercial : Bool)
    (h : ITC_COMMERCIAL_SAFE_HARBOR ≤ reference_day) :
    calculate_itc_urgency state_code is_commercial reference_day ≠
        ITCUrgency.CRITICAL ∧
      calculate_itc_urgency state_code is_commercial reference_day ≠
        ITCUrgency.HIGH ∧
      calculate_itc_urgency state_code is_commercial reference_day =
        (if is_srec_state state_code then ITCUrgency.MEDIUM
         else ITCUrgency.LOW) := by
  have hres : ITC_RESIDENTIAL_DEADLINE < ITC_COMMERCIAL_SAFE_HARBOR := by decide
  have h1 : ¬(0 < ITC_COMMERCIAL_SAFE_HARBOR - reference_day) := by omega
  have h2 : ¬(0 < ITC_RESIDENTIAL_DEADLINE - reference_day) := by omega
  have heq : calculate_itc_urgency state_code is_commercial reference_day =
      (if is_srec_state state_code then ITCUrgency.MEDIUM else ITCUrgency.LOW) := by
    simp only [calculate_itc_urgency]
    rw [if_neg (fun hc => h1 hc.2.2), if_neg (fun hc => h2 hc.2.2)]
  refine ⟨?_, ?_, heq⟩ <;> rw [heq] <;> split <;> decide

/-- Witness for C10: evaluated exactly on the safe-harbor deadline day for a
commercial California contractor. -/
theorem urgency_after_safe_harbor_never_critical_or_high_witness :
    ITC_COMMERCIAL_SAFE_HARBOR ≤ ITC_COMMERCIAL_SAFE_HARBOR ∧
      (calculate_itc_urgency "CA" true ITC_COMMERCIAL_SAFE_HARBOR ≠
          ITCUrgency.CRITICAL ∧
        calculate_itc_urgency "CA" true ITC_COMMERCIAL_SAFE_HARBOR ≠
          ITCUrgency.HIGH ∧
        calculate_itc_urgency "CA" true ITC_COMMERCIAL_SAFE_HARBOR =
          (if is_srec_state "CA" then ITCUrgency.MEDIUM else ITCUrgency.LOW)) :=
  ⟨le_refl _,
    urgency_after_safe_harbor_never_critical_or_high ITC_COMMERCIAL_SAFE_HARBOR
      "CA" true (le_refl _)⟩
